import Mathlib

/-!
# Verification of the periodic value/countdown core

Shallow embedding of the repository's reactive core: the hook `useRandom`
(a new pseudo-random integer every 10 time units), the hook `useTimer`
(a countdown from 10 that decrements once per time unit and resets when its
dependency changes), and their composition in `App`.

The embedding is a discrete-event scheduler model, one step per time unit,
following the single-threaded run-to-completion event-loop semantics of the
host: at each integer time the due callbacks fire in registration order
(the 10-unit generator interval was registered before the 1-unit countdown
interval, so when both are due the generator fires first), and clearing an
interval also cancels a callback that is due at the current instant but has
not yet run.

React-specific semantics captured by the model:
* a state setter called with a value equal (`Object.is`, which for the
  integers produced here is numeric equality) to the current state bails
  out: no re-render and no effect re-run happen;
* `useEffect` dependency arrays are compared element-wise with `Object.is`,
  so the effect in `useTimer` re-runs exactly when `randomNumber` changed
  numerically (the `tick` callback is referentially stable thanks to
  `useCallback` with an empty dependency list);
* when the effect re-runs, the cleanup of the previous run (`clearInterval`)
  executes first, then the body (`storeSeconds(10)`; `setInterval(tick, 1000)`).
-/

/-- The generation function `rand` of `hooks/random.ts`:
`const rand = () => Math.floor(Math.random() * 9000 + 1000)`.
`Math.random()` yields a value in `[0, 1)`, modelled as a rational argument;
the result is an integer by construction (`Int.floor`). -/
def rand (r : ℚ) : ℤ := ⌊r * 9000 + 1000⌋

/-- The `tick` callback of `hooks/timer.ts`:
`storeSeconds((s) => s - 1)`. -/
def tick (s : ℤ) : ℤ := s - 1

/-- State of the composed application (`App` mounting `useRandom` and
`useTimer(randomNumber)`).

* `time` — the simulated clock, in time units (seconds);
* `value` — the state of `useRandom` (the current random number);
* `seconds` — the state of `useTimer` (the countdown);
* `current` — the handle (start time) of the 1-unit interval created by the
  most recent run of the `useTimer` effect;
* `intervals` — the handles of all active 1-unit decrement intervals;
* `emitCount` — how many times the generation function has been evaluated
  and its result stored (the initial `useState(rand())` plus one per firing
  of the 10-unit interval);
* `randomActive` — whether the 10-unit interval of `useRandom` is active
  (cleared on teardown of the generator);
* `timerMounted` — whether `useTimer` is mounted (its effect can run and
  its interval list is live). -/
structure AppState where
  time : ℕ
  value : ℤ
  seconds : ℤ
  current : ℕ
  intervals : List ℕ
  emitCount : ℕ
  randomActive : Bool
  timerMounted : Bool
  deriving Repr, DecidableEq

/-- Mount: `useRandom` computes `rand()` immediately in `useState(rand())`
(here `src 0`), `useTimer` initialises `seconds` to 10, and the mount
effects register the 10-unit interval and the first 1-unit interval
(handle 0). `src k` is the integer produced by the k-th evaluation of the
generation function. -/
def initApp (src : ℕ → ℤ) : AppState :=
  { time := 0
    value := src 0
    seconds := 10
    current := 0
    intervals := [0]
    emitCount := 1
    randomActive := true
    timerMounted := true }

/-- One firing round of the active 1-unit intervals: every active interval
fires its `tick` callback once per elapsed time unit. -/
def fireTicks (s : AppState) : ℤ :=
  s.intervals.foldl (fun x _ => tick x) s.seconds

/-- Advance the simulated clock by one time unit, firing the callbacks due
at `s.time + 1`.

If the new instant is a multiple of 10 and the generator interval is
active, the generator callback fires first (it was registered first):
`storeNumber(rand())`. If the produced number equals the stored one, React
bails out — no re-render, so the `useTimer` effect does not re-run — and
the already-active 1-unit interval then fires its due tick. The same
happens when `useTimer` is unmounted (its effect can no longer run). If
the produced number differs and the timer is mounted, the effect re-runs
within the same notification cycle: the previous interval `s.current` is
cleared (cancelling also its tick due at this very instant), `seconds` is
reset to 10, and a fresh 1-unit interval is registered whose first firing
is one unit later.

At every other instant only the active 1-unit intervals fire. -/
def stepApp (src : ℕ → ℤ) (s : AppState) : AppState :=
  let t := s.time + 1
  if t % 10 = 0 ∧ s.randomActive = true then
    let newVal := src (t / 10)
    if newVal = s.value ∨ s.timerMounted = false then
      { s with time := t, value := newVal, seconds := fireTicks s,
               emitCount := s.emitCount + 1 }
    else
      { s with time := t, value := newVal, seconds := 10, current := t,
               intervals := t :: s.intervals.erase s.current,
               emitCount := s.emitCount + 1 }
  else
    { s with time := t, seconds := fireTicks s }

/-- The state after `n` time units of a run that starts at mount. -/
def runApp (src : ℕ → ℤ) : ℕ → AppState
  | 0 => initApp src
  | n + 1 => stepApp src (runApp src n)

/-- Advancing an arbitrary state by `k` time units (used for the states
reached after a teardown). -/
def iterApp (src : ℕ → ℤ) : ℕ → AppState → AppState
  | 0, s => s
  | k + 1, s => stepApp src (iterApp src k s)

/-- Teardown of `useRandom`: its effect cleanup runs
`clearInterval(interval)` on the 10-unit interval. -/
def unmountRandom (s : AppState) : AppState :=
  { s with randomActive := false }

/-- Teardown of `useTimer`: its effect cleanup runs
`clearInterval(interval)` on the interval created by the last effect run. -/
def unmountTimer (s : AppState) : AppState :=
  { s with timerMounted := false, intervals := s.intervals.erase s.current }

/-- The step from time `n` to time `n + 1` of a mounted run performs a
countdown reset exactly when the instant `n + 1` is a generator firing that
produces a number different from the stored one. -/
abbrev resetsAt (src : ℕ → ℤ) (n : ℕ) : Prop :=
  (n + 1) % 10 = 0 ∧ src ((n + 1) / 10) ≠ (runApp src n).value

/-! ## Basic facts about the model -/

/-- Folding the `tick` callback over the active intervals subtracts one per
active interval. -/
lemma foldl_tick (l : List ℕ) (a : ℤ) :
    l.foldl (fun x _ => tick x) a = a - l.length := by
  induction l generalizing a with
  | nil => simp
  | cons b l ih =>
    rw [List.foldl_cons, ih]
    simp only [tick, List.length_cons]
    push_cast
    ring

lemma fireTicks_eq (s : AppState) :
    fireTicks s = s.seconds - s.intervals.length :=
  foldl_tick s.intervals s.seconds

lemma stepApp_time (src : ℕ → ℤ) (s : AppState) :
    (stepApp src s).time = s.time + 1 := by
  unfold stepApp
  dsimp only
  split
  · split <;> rfl
  · rfl

lemma stepApp_randomActive (src : ℕ → ℤ) (s : AppState) :
    (stepApp src s).randomActive = s.randomActive := by
  unfold stepApp
  dsimp only
  split
  · split <;> rfl
  · rfl

lemma stepApp_timerMounted (src : ℕ → ℤ) (s : AppState) :
    (stepApp src s).timerMounted = s.timerMounted := by
  unfold stepApp
  dsimp only
  split
  · split <;> rfl
  · rfl

lemma runApp_time (src : ℕ → ℤ) (n : ℕ) : (runApp src n).time = n := by
  induction n with
  | zero => rfl
  | succ n ih => rw [runApp, stepApp_time, ih]

lemma runApp_randomActive (src : ℕ → ℤ) (n : ℕ) :
    (runApp src n).randomActive = true := by
  induction n with
  | zero => rfl
  | succ n ih => rw [runApp, stepApp_randomActive, ih]

lemma runApp_timerMounted (src : ℕ → ℤ) (n : ℕ) :
    (runApp src n).timerMounted = true := by
  induction n with
  | zero => rfl
  | succ n ih => rw [runApp, stepApp_timerMounted, ih]

/-- The reschedule discipline of the `useTimer` effect: at every reachable
state of a mounted run, the active decrement intervals are exactly the one
created by the most recent effect run. -/
lemma runApp_intervals (src : ℕ → ℤ) (n : ℕ) :
    (runApp src n).intervals = [(runApp src n).current] := by
  induction n with
  | zero => rfl
  | succ n ih =>
    rw [runApp]
    unfold stepApp
    dsimp only
    split
    · split
      · simpa using ih
      · simp [ih]
    · simpa using ih

lemma succ_div_ten_of_mod (n : ℕ) (h : (n + 1) % 10 ≠ 0) :
    (n + 1) / 10 = n / 10 := by
  rw [Nat.succ_div]
  have : ¬ 10 ∣ n + 1 := by omega
  simp [this]

/-- The number held by `useRandom` at time `n` is the one produced at the
most recent generator firing (the initial computation counting as firing 0):
the generation function ran `n / 10` times since mount, plus once at mount. -/
lemma runApp_value (src : ℕ → ℤ) (n : ℕ) :
    (runApp src n).value = src (n / 10) := by
  induction n with
  | zero => rfl
  | succ n ih =>
    rw [runApp]
    unfold stepApp
    dsimp only
    rw [runApp_time]
    by_cases h : (n + 1) % 10 = 0
    · rw [if_pos (by simp [h, runApp_randomActive])]
      split <;> rfl
    · rw [if_neg (by simp [h])]
      rw [ih, succ_div_ten_of_mod n h]

lemma runApp_emitCount (src : ℕ → ℤ) (n : ℕ) :
    (runApp src n).emitCount = n / 10 + 1 := by
  induction n with
  | zero => rfl
  | succ n ih =>
    rw [runApp]
    unfold stepApp
    dsimp only
    rw [runApp_time]
    by_cases h : (n + 1) % 10 = 0
    · rw [if_pos (by simp [h, runApp_randomActive])]
      have hdiv : (n + 1) / 10 = n / 10 + 1 := by
        rw [Nat.succ_div]
        have : 10 ∣ n + 1 := by omega
        simp [this]
      split <;> simp [ih, hdiv]
    · rw [if_neg (by simp [h])]
      rw [ih, succ_div_ten_of_mod n h]

/-- A step that performs no reset decrements the countdown by exactly one
(the single active interval fires `tick` once). -/
lemma runApp_seconds_of_not_reset (src : ℕ → ℤ) (n : ℕ)
    (h : ¬ resetsAt src n) :
    (runApp src (n + 1)).seconds = (runApp src n).seconds - 1 := by
  have hfire : fireTicks (runApp src n) = (runApp src n).seconds - 1 := by
    rw [fireTicks_eq, runApp_intervals]
    simp
  rw [runApp]
  unfold stepApp
  dsimp only
  rw [runApp_time]
  by_cases hmod : (n + 1) % 10 = 0
  · rw [if_pos (by simp [hmod, runApp_randomActive])]
    have heq : src ((n + 1) / 10) = (runApp src n).value := by
      by_contra hne
      exact h ⟨hmod, hne⟩
    rw [if_pos (Or.inl heq)]
    exact hfire
  · rw [if_neg (by simp [hmod])]
    exact hfire

/-- A step that performs a reset stores 10 into the countdown. -/
lemma runApp_seconds_of_reset (src : ℕ → ℤ) (n : ℕ)
    (h : resetsAt src n) :
    (runApp src (n + 1)).seconds = 10 := by
  rw [runApp]
  unfold stepApp
  dsimp only
  rw [runApp_time]
  rw [if_pos (by simp [h.1, runApp_randomActive])]
  rw [if_neg (by simp [h.2, runApp_timerMounted])]

/-- Over any stretch of `k` steps none of which resets, the countdown drops
by exactly `k`. -/
lemma runApp_seconds_add (src : ℕ → ℤ) (n k : ℕ)
    (h : ∀ j, j < k → ¬ resetsAt src (n + j)) :
    (runApp src (n + k)).seconds = (runApp src n).seconds - k := by
  induction k with
  | zero => simp
  | succ k ih =>
    have step : (runApp src (n + k + 1)).seconds
        = (runApp src (n + k)).seconds - 1 :=
      runApp_seconds_of_not_reset src (n + k) (h k (Nat.lt_succ_self k))
    have : n + (k + 1) = n + k + 1 := rfl
    rw [this, step, ih fun j hj => h j (Nat.lt_succ_of_lt hj)]
    push_cast
    ring

lemma runApp_seconds_le (src : ℕ → ℤ) (n : ℕ) :
    (runApp src n).seconds ≤ 10 := by
  induction n with
  | zero => simp [runApp, initApp]
  | succ n ih =>
    by_cases h : resetsAt src n
    · rw [runApp_seconds_of_reset src n h]
    · rw [runApp_seconds_of_not_reset src n h]
      omega

/-! ## Behaviour after teardown -/

lemma iterApp_randomActive (src : ℕ → ℤ) (k : ℕ) (s : AppState) :
    (iterApp src k s).randomActive = s.randomActive := by
  induction k with
  | zero => rfl
  | succ k ih => rw [iterApp, stepApp_randomActive, ih]

lemma iterApp_timerMounted (src : ℕ → ℤ) (k : ℕ) (s : AppState) :
    (iterApp src k s).timerMounted = s.timerMounted := by
  induction k with
  | zero => rfl
  | succ k ih => rw [iterApp, stepApp_timerMounted, ih]

/-- With the generator interval cleared, a step never runs the generator
callback: the stored number and the count of generation-function runs are
frozen. -/
lemma stepApp_of_inactive (src : ℕ → ℤ) (s : AppState)
    (h : s.randomActive = false) :
    (stepApp src s).value = s.value ∧
    (stepApp src s).emitCount = s.emitCount := by
  unfold stepApp
  dsimp only
  rw [if_neg (by simp [h])]
  exact ⟨rfl, rfl⟩

lemma iterApp_of_inactive (src : ℕ → ℤ) (k : ℕ) (s : AppState)
    (h : s.randomActive = false) :
    (iterApp src k s).value = s.value ∧
    (iterApp src k s).emitCount = s.emitCount := by
  induction k with
  | zero => exact ⟨rfl, rfl⟩
  | succ k ih =>
    have h' : (iterApp src k s).randomActive = false := by
      rw [iterApp_randomActive, h]
    rw [iterApp]
    obtain ⟨h1, h2⟩ := stepApp_of_inactive src _ h'
    exact ⟨h1.trans ih.1, h2.trans ih.2⟩

/-- With `useTimer` unmounted and its interval cleared, a step never fires a
`tick` and never resets: the countdown is frozen. -/
lemma stepApp_of_unmounted (src : ℕ → ℤ) (s : AppState)
    (hm : s.timerMounted = false) (hi : s.intervals = []) :
    (stepApp src s).seconds = s.seconds ∧
    (stepApp src s).intervals = [] := by
  have hfire : fireTicks s = s.seconds := by
    rw [fireTicks_eq, hi]
    simp
  unfold stepApp
  dsimp only
  split
  · rw [if_pos (Or.inr hm)]
    exact ⟨hfire, hi⟩
  · exact ⟨hfire, hi⟩

lemma iterApp_of_unmounted (src : ℕ → ℤ) (k : ℕ) (s : AppState)
    (hm : s.timerMounted = false) (hi : s.intervals = []) :
    (iterApp src k s).seconds = s.seconds ∧
    (iterApp src k s).intervals = [] := by
  induction k with
  | zero => exact ⟨rfl, hi⟩
  | succ k ih =>
    have hm' : (iterApp src k s).timerMounted = false := by
      rw [iterApp_timerMounted, hm]
    rw [iterApp]
    obtain ⟨h1, h2⟩ := stepApp_of_unmounted src _ hm' ih.2
    exact ⟨h1.trans ih.1, h2⟩

lemma unmountTimer_runApp_intervals (src : ℕ → ℤ) (n : ℕ) :
    (unmountTimer (runApp src n)).intervals = [] := by
  unfold unmountTimer
  dsimp only
  rw [runApp_intervals]
  simp

/-! ## Range of the generation function -/

lemma rand_lower (r : ℚ) (h0 : 0 ≤ r) : 1000 ≤ rand r := by
  unfold rand
  rw [Int.le_floor]
  push_cast
  nlinarith

lemma rand_upper (r : ℚ) (h1 : r < 1) : rand r ≤ 9999 := by
  have h2 : (⌊r * 9000 + 1000⌋ : ℤ) < 10000 := by
    rw [Int.floor_lt]
    push_cast
    nlinarith
  unfold rand
  omega

/-! ## The claims -/

/-- Claim C1, counterexample. The claim says a reset happens on every new
production, even one numerically equal to the prior value. It fails: with a
source that produces 1000 twice (realisable, since `rand 0 = 1000`), the
generator fires at time 10 — the run count of the generation function goes
from 1 to 2 — and stores a value equal to the prior one, yet the countdown
reads 0, not 10. `useEffect` dependencies are compared with `Object.is`,
which is numeric equality for these integers, so the equal production does
not re-run the effect and no reset occurs. -/
theorem c1_counterexample :
    rand 0 = 1000 ∧
    (runApp (fun _ => (1000 : ℤ)) 10).emitCount
      = (runApp (fun _ => (1000 : ℤ)) 9).emitCount + 1 ∧
    (runApp (fun _ => (1000 : ℤ)) 10).value
      = (runApp (fun _ => (1000 : ℤ)) 9).value ∧
    (runApp (fun _ => (1000 : ℤ)) 10).seconds = 0 ∧
    (runApp (fun _ => (1000 : ℤ)) 10).seconds ≠ 10 :=
  ⟨by norm_num [rand], by decide, by decide, by decide, by decide⟩

/-- Claim C1 as amended: the reset trigger is value-based, not
identity-based. At a generator firing instant, the countdown is reset to 10
exactly when the newly produced number differs (numerically) from the
stored one; a production numerically equal to the prior value leaves the
countdown decrementing. -/
theorem c1_reset_value_based (src : ℕ → ℤ) (n : ℕ)
    (hfire : (n + 1) % 10 = 0) :
    (runApp src (n + 1)).seconds = 10
      ↔ src ((n + 1) / 10) ≠ (runApp src n).value := by
  constructor
  · intro h10 heq
    have hnr : ¬ resetsAt src n := fun hc => hc.2 heq
    have hstep := runApp_seconds_of_not_reset src n hnr
    have hle := runApp_seconds_le src n
    omega
  · intro hne
    exact runApp_seconds_of_reset src n ⟨hfire, hne⟩

/-- Witness for the amended C1 at a concrete input. -/
theorem c1_reset_value_based_witness :
    (runApp (fun k => (k : ℤ)) (9 + 1)).seconds = 10
      ↔ (fun k => (k : ℤ)) ((9 + 1) / 10) ≠ (runApp (fun k => (k : ℤ)) 9).value :=
  c1_reset_value_based (fun k => (k : ℤ)) 9 (by decide)

/-- Claim C2, counterexample. The claim bounds every produced value
strictly below 9000, but the generation function applied to the admissible
random input 8/9 yields exactly 9000. -/
theorem c2_counterexample :
    (0 : ℚ) ≤ 8 / 9 ∧ (8 / 9 : ℚ) < 1 ∧
    rand (8 / 9) = 9000 ∧ ¬ rand (8 / 9) < 9000 :=
  ⟨by norm_num, by norm_num, by norm_num [rand], by norm_num [rand]⟩

/-- Claim C2 as amended: every value produced by the generation function
from a random input in `[0, 1)` is an integer in `[1000, 10000)` — at least
1000 and strictly less than 10000 (not 9000). -/
theorem c2_value_range_amended (r : ℚ) (h0 : 0 ≤ r) (h1 : r < 1) :
    1000 ≤ rand r ∧ rand r < 10000 := by
  refine ⟨rand_lower r h0, ?_⟩
  have := rand_upper r h1
  omega

/-- Witness for the amended C2 at a concrete input. -/
theorem c2_value_range_amended_witness :
    1000 ≤ rand 0 ∧ rand 0 < 10000 :=
  c2_value_range_amended 0 (le_refl 0) zero_lt_one

/-- Claim C3, confirmed: every value produced by the generation function
from a random input in `[0, 1)` is an integer (the codomain of `rand` is
ℤ by construction, via `Math.floor`) with `1000 ≤ v ≤ 9999`. -/
theorem c3_rand_range (r : ℚ) (h0 : 0 ≤ r) (h1 : r < 1) :
    1000 ≤ rand r ∧ rand r ≤ 9999 :=
  ⟨rand_lower r h0, rand_upper r h1⟩

/-- Witness for C3 at a concrete input. -/
theorem c3_rand_range_witness : 1000 ≤ rand 0 ∧ rand 0 ≤ 9999 :=
  c3_rand_range 0 (le_refl 0) zero_lt_one

/-- Claim C4, confirmed: the end-to-end scenario. At simulated time 0 the
value is X0 = `src 0` and the countdown is 10; after 1 unit the countdown
is 9; at time 10 the new value X1 = `src 1` is emitted and the countdown is
reset to 10 in the same logical step; one unit later the countdown is 9 and
the value is still X1. "A new value X1" is formalised as the production at
time 10 being numerically different from X0 (an emission equal to X0 would
not reset, see C1). -/
theorem c4_end_to_end (src : ℕ → ℤ) (hnew : src 1 ≠ src 0) :
    (runApp src 0).value = src 0 ∧ (runApp src 0).seconds = 10 ∧
    (runApp src 1).seconds = 9 ∧
    (runApp src 10).value = src 1 ∧ (runApp src 10).seconds = 10 ∧
    (runApp src 11).value = src 1 ∧ (runApp src 11).seconds = 9 := by
  have hs0 : (runApp src 0).seconds = 10 := rfl
  have hr9 : resetsAt src 9 := by
    refine ⟨by norm_num, ?_⟩
    simpa [runApp_value] using hnew
  have hs10 : (runApp src 10).seconds = 10 := runApp_seconds_of_reset src 9 hr9
  have hn0 : ¬ resetsAt src 0 := fun hc => by simpa using hc.1
  have hn10 : ¬ resetsAt src 10 := fun hc => by simpa using hc.1
  have hs1 : (runApp src 1).seconds = 9 := by
    have h := runApp_seconds_of_not_reset src 0 hn0
    norm_num at h
    omega
  have hs11 : (runApp src 11).seconds = 9 := by
    have h := runApp_seconds_of_not_reset src 10 hn10
    norm_num at h
    omega
  exact ⟨rfl, hs0, hs1, by simpa using runApp_value src 10, hs10,
    by simpa using runApp_value src 11, hs11⟩

/-- Witness for C4 at a concrete input. -/
theorem c4_end_to_end_witness :
    (runApp (fun k => (k : ℤ)) 0).value = 0 ∧
    (runApp (fun k => (k : ℤ)) 0).seconds = 10 ∧
    (runApp (fun k => (k : ℤ)) 1).seconds = 9 ∧
    (runApp (fun k => (k : ℤ)) 10).value = 1 ∧
    (runApp (fun k => (k : ℤ)) 10).seconds = 10 ∧
    (runApp (fun k => (k : ℤ)) 11).value = 1 ∧
    (runApp (fun k => (k : ℤ)) 11).seconds = 9 :=
  c4_end_to_end (fun k => (k : ℤ)) (by decide)

/-- Claim C5, confirmed: at every reachable state of a mounted run the
countdown owns exactly one active decrement interval — the one created by
the most recent run of its effect (each reset erases the previous handle
before registering the new one), so decrement events never come from two
overlapping schedules. -/
theorem c5_single_schedule (src : ℕ → ℤ) (n : ℕ) :
    (runApp src n).intervals = [(runApp src n).current] ∧
    (runApp src n).intervals.length = 1 := by
  refine ⟨runApp_intervals src n, ?_⟩
  rw [runApp_intervals]
  rfl

/-- Claim C6, confirmed: no clamp at zero. With a source all of whose
productions equal the initial one, no reset ever occurs, and after `k` time
units the countdown reads `10 - k` — going negative once `k > 10`. -/
theorem c6_no_zero_clamp (src : ℕ → ℤ) (hconst : ∀ m, src m = src 0)
    (k : ℕ) :
    (runApp src k).seconds = 10 - (k : ℤ) := by
  have hnr : ∀ j, j < k → ¬ resetsAt src (0 + j) := by
    intro j hj hc
    apply hc.2
    rw [runApp_value]
    exact (hconst _).trans (hconst _).symm
  have h := runApp_seconds_add src 0 k hnr
  simpa using h

/-- Witness for C6 at a concrete input: after 11 units the countdown has
gone negative. -/
theorem c6_no_zero_clamp_witness :
    (runApp (fun _ => (1000 : ℤ)) 11).seconds = -1 := by
  have h := c6_no_zero_clamp (fun _ => (1000 : ℤ)) (fun m => rfl) 11
  norm_num at h
  exact h

/-- Claim C7, confirmed: the generator computes and holds an initial value
by the formula `floor(random() * 9000 + 1000)` immediately at creation
(take `t = 0`: the held value is `rand (rs 0)` and the formula has run
exactly once), and thereafter emits exactly one newly computed value per 10
elapsed time units: after `t` units the formula has run `t / 10 + 1` times
in total and the held value is the latest result, `rand (rs (t / 10))`,
where `rs k` is the k-th output of `Math.random()`. -/
theorem c7_generator (rs : ℕ → ℚ) (t : ℕ) :
    (runApp (fun k => rand (rs k)) t).value = rand (rs (t / 10)) ∧
    (runApp (fun k => rand (rs k)) t).emitCount = t / 10 + 1 :=
  ⟨runApp_value (fun k => rand (rs k)) t,
   runApp_emitCount (fun k => rand (rs k)) t⟩

/-- Claim C8, confirmed: the countdown starts at 10, and over any stretch
of `k` time units in which no reset fires (no dependency change is
observed), it drops by exactly 1 per unit: `seconds = seconds₀ - k`. -/
theorem c8_countdown_decrement (src : ℕ → ℤ) (n k : ℕ)
    (h : ∀ j, j < k → ¬ resetsAt src (n + j)) :
    (runApp src 0).seconds = 10 ∧
    (runApp src (n + k)).seconds = (runApp src n).seconds - k :=
  ⟨rfl, runApp_seconds_add src n k h⟩

/-- Witness for C8 at a concrete input. -/
theorem c8_countdown_decrement_witness :
    (runApp (fun _ => (1000 : ℤ)) 0).seconds = 10 ∧
    (runApp (fun _ => (1000 : ℤ)) (0 + 5)).seconds
      = (runApp (fun _ => (1000 : ℤ)) 0).seconds - 5 :=
  c8_countdown_decrement (fun _ => (1000 : ℤ)) 0 5 (by decide)

/-- Claim C9, confirmed: teardown silences a component. After the
generator's teardown (its interval cleared) the stored value and the count
of generation-function runs never change again, however far the clock
advances; after the countdown's teardown (its interval cleared, its effect
dead) the countdown value never changes again. -/
theorem c9_teardown (src : ℕ → ℤ) (n k : ℕ) :
    (iterApp src k (unmountRandom (runApp src n))).value
      = (runApp src n).value ∧
    (iterApp src k (unmountRandom (runApp src n))).emitCount
      = (runApp src n).emitCount ∧
    (iterApp src k (unmountTimer (runApp src n))).seconds
      = (runApp src n).seconds := by
  obtain ⟨h1, h2⟩ :=
    iterApp_of_inactive src k (unmountRandom (runApp src n)) rfl
  obtain ⟨h3, _⟩ :=
    iterApp_of_unmounted src k (unmountTimer (runApp src n)) rfl
      (unmountTimer_runApp_intervals src n)
  exact ⟨h1, h2, h3⟩

/-- Claim C10, confirmed: the countdown never exceeds 10 in any reachable
state — it starts at 10, resets store exactly 10, and every other change is
a decrement. -/
theorem c10_seconds_le_ten (src : ℕ → ℤ) (n : ℕ) :
    (runApp src n).seconds ≤ 10 :=
  runApp_seconds_le src n
